import Mathlib

set_option autoImplicit false

/-!
Shallow embedding of the TMDB movie-info wrapper service:
`movie_client.py` (the upstream HTTP client whose two operations are memoized
with `functools.lru_cache`) and `main.py` (the FastAPI route handlers).
All definitions are translated from the repository source; upstream HTTP
behaviour is abstracted as an explicit outcome supplied per attempt.
-/

/-- JSON values as produced by `response.json()`.  `JSON.null` also plays the
role of Python `None` (parsing the JSON literal `null` yields `None`, and the
client returns `None` for not-found, so the two coincide in Python as well).
Numbers are modelled as rationals; exact float formatting is irrelevant to the
properties proved here. -/
inductive JSON where
  | null : JSON
  | bool : Bool → JSON
  | num : Rat → JSON
  | str : String → JSON
  | arr : List JSON → JSON
  | obj : List (String × JSON) → JSON

/-- Python exceptions that the modelled code can raise (escape a client call):
`requests.exceptions.JSONDecodeError` raised by `response.json()` inside an
`except` handler (where the later `except RequestException` clause of the same
`try` cannot catch it), `AttributeError` from calling `.get` on a non-dict, and
`TypeError` from `in` applied to a non-container. -/
inductive PyExc where
  | jsonDecodeError : PyExc
  | attributeError : PyExc
  | typeError : PyExc
deriving DecidableEq, Repr

/-- Body of an upstream HTTP response: either text that parses as JSON or text
(possibly empty/absent) that does not parse as JSON. -/
inductive Body where
  | jsonBody : JSON → Body
  | rawBody : String → Body

/-- An upstream HTTP response as seen by `requests`. -/
structure HttpResponse where
  status_code : Nat
  body : Body

/-- Outcome of one outbound HTTP attempt (`requests.get`): either a response
arrives, or a transport-level failure (DNS, connection, timeout) raises a
`requests.exceptions.RequestException` carrying a message. -/
inductive UpstreamOutcome where
  | response : HttpResponse → UpstreamOutcome
  | requestFailure : String → UpstreamOutcome

/-- First value bound to key `k` in an association list (Python dict lookup;
source dicts have unique keys). -/
def jsonLookup (kvs : List (String × JSON)) (k : String) : Option JSON :=
  (kvs.find? (fun e => decide (e.1 = k))).map (fun e => e.2)

/-- Python `k in d` for a dict `d` (key membership); `false` on non-dicts.
Only used in the source after an `isinstance(..., dict)` guard. -/
def jsonHasKey (j : JSON) (k : String) : Bool :=
  match j with
  | .obj kvs => (jsonLookup kvs k).isSome
  | _ => false

/-- Python `isinstance(x, dict)` on a parsed JSON value. -/
def jsonIsDict (j : JSON) : Bool :=
  match j with
  | .obj _ => true
  | _ => false

/-- Python `x is None` on a parsed JSON value (see `JSON.null`). -/
def jsonIsNull (j : JSON) : Bool :=
  match j with
  | .null => true
  | _ => false

/-- Python `d.get(k, dflt)`: raises `AttributeError` when the receiver is not
a dict. -/
def pyDictGet (j : JSON) (k : String) (dflt : JSON) : Except PyExc JSON :=
  match j with
  | .obj kvs => .ok ((jsonLookup kvs k).getD dflt)
  | _ => .error .attributeError

/-- Total variant of `d.get(k, dflt)` for call sites that the source guards
with `isinstance(d, dict)` (the non-dict case is unreachable there). -/
def jsonGetD (j : JSON) (k : String) (dflt : JSON) : JSON :=
  match j with
  | .obj kvs => (jsonLookup kvs k).getD dflt
  | _ => dflt

/-- Python truthiness of a parsed JSON value (`None`, `False`, `0`, `""`,
`[]`, `{}` are falsy). -/
def pyTruthy (j : JSON) : Bool :=
  match j with
  | .null => false
  | .bool b => b
  | .num q => decide (q ≠ 0)
  | .str s => decide (s ≠ "")
  | .arr xs => !xs.isEmpty
  | .obj kvs => !kvs.isEmpty

/-- Python `needle in xs` for a list `xs` and a string needle: `==` between a
string and a non-string value is `False`, so only string elements can match. -/
def listContainsStr (needle : String) : List JSON → Bool
  | [] => false
  | .str s :: rest => decide (s = needle) || listContainsStr needle rest
  | _ :: rest => listContainsStr needle rest

/-- Substring test, Python `needle in s` for strings. -/
def strContainsSubstr (needle s : String) : Bool :=
  (List.range (s.toList.length + 1)).any
    (fun i => needle.toList.isPrefixOf (s.toList.drop i))

/-- Python `needle in container` for a string needle: key membership for
dicts, element equality for lists, substring test for strings, and a
`TypeError` for values that support no membership test. -/
def pyContainsStr (needle : String) (container : JSON) : Except PyExc Bool :=
  match container with
  | .obj kvs => .ok (kvs.any (fun e => decide (e.1 = needle)))
  | .arr xs => .ok (listContainsStr needle xs)
  | .str s => .ok (strContainsSubstr needle s)
  | _ => .error .typeError

/-- Python rendering of a rational JSON number; integral values print without
a fractional part.  Exact float formatting is approximated (no property proved
here inspects it). -/
def ratPyStr (q : Rat) : String :=
  if q.den = 1 then toString q.num else toString q

mutual

/-- Python `repr` of a parsed JSON value, used by `str` for the elements of
containers.  String quoting uses single quotes as CPython does. -/
def pyRepr : JSON → String
  | .null => "None"
  | .bool true => "True"
  | .bool false => "False"
  | .num q => ratPyStr q
  | .str s => "\x27" ++ s ++ "\x27"
  | .arr xs => "[" ++ pyReprList xs ++ "]"
  | .obj kvs => "\x7b" ++ pyReprObj kvs ++ "\x7d"

/-- Comma-separated `repr`s of list elements. -/
def pyReprList : List JSON → String
  | [] => ""
  | [x] => pyRepr x
  | x :: y :: rest => pyRepr x ++ ", " ++ pyReprList (y :: rest)

/-- Comma-separated `repr`s of dict entries. -/
def pyReprObj : List (String × JSON) → String
  | [] => ""
  | [(k, v)] => "\x27" ++ k ++ "\x27: " ++ pyRepr v
  | (k, v) :: e :: rest => "\x27" ++ k ++ "\x27: " ++ pyRepr v ++ ", " ++ pyReprObj (e :: rest)

end

/-- Python `str` of a parsed JSON value (as interpolated by an f-string):
strings render without quotes, containers via `repr` of their elements. -/
def pyStr (j : JSON) : String :=
  match j with
  | .str s => s
  | j => pyRepr j

/-- Message text of the `JSONDecodeError` raised by `response.json()` on a
body that is not valid JSON (the concrete text depends on the body; nothing
proved here inspects it). -/
def jsonDecodeErrorMessage (_raw : String) : String :=
  "Expecting value: line 1 column 1 (char 0)"

/-- Body of `MovieAPIClient.get_movie_details` (the function wrapped by
`lru_cache`), as a function of the outcome of its single `requests.get`:

* transport failure: caught by `except RequestException`, returns
  `\x7b"error": "Network or Connection error", "message": str(e)\x7d`;
* 4xx/5xx status: `raise_for_status()` raises `HTTPError`; for 404 return
  `None`; otherwise evaluate `response.json().get("status_message", ...)`
  inside the handler — if the body is not valid JSON this raises
  `JSONDecodeError`, and if it parses to a non-dict, `AttributeError`, and
  either exception escapes (an exception raised inside an `except` block is
  not caught by the later clause of the same `try`);
* 2xx/3xx: return `response.json()`; if the body is not valid JSON the
  `JSONDecodeError` (a `RequestException` subclass) is raised inside the
  `try` and caught by `except RequestException`. -/
def get_movie_details_body (outcome : UpstreamOutcome) : Except PyExc JSON :=
  match outcome with
  | .requestFailure msg =>
      .ok (.obj [("error", .str "Network or Connection error"), ("message", .str msg)])
  | .response r =>
      if 400 ≤ r.status_code ∧ r.status_code < 600 then
        if r.status_code = 404 then
          .ok .null
        else
          match r.body with
          | .jsonBody j =>
              match pyDictGet j "status_message" (.str "Unknown API error") with
              | .ok m =>
                  .ok (.obj [("error", .str ("API error : " ++ toString r.status_code)),
                             ("message", m)])
              | .error e => .error e
          | .rawBody _ => .error .jsonDecodeError
      else
        match r.body with
        | .jsonBody j => .ok j
        | .rawBody raw =>
            .ok (.obj [("error", .str "Network or Connection error"),
                       ("message", .str (jsonDecodeErrorMessage raw))])

/-- Body of `MovieAPIClient.search_movies` (the function wrapped by
`lru_cache`); identical handling to `get_movie_details_body` except that there
is no 404 special case and the literal error strings differ
(`"API Error: ..."`, `"Network or connection error"`). -/
def search_movies_body (outcome : UpstreamOutcome) : Except PyExc JSON :=
  match outcome with
  | .requestFailure msg =>
      .ok (.obj [("error", .str "Network or connection error"), ("message", .str msg)])
  | .response r =>
      if 400 ≤ r.status_code ∧ r.status_code < 600 then
        match r.body with
        | .jsonBody j =>
            match pyDictGet j "status_message" (.str "Unknown API error") with
            | .ok m =>
                .ok (.obj [("error", .str ("API Error: " ++ toString r.status_code)),
                           ("message", m)])
            | .error e => .error e
        | .rawBody _ => .error .jsonDecodeError
      else
        match r.body with
        | .jsonBody j => .ok j
        | .rawBody raw =>
            .ok (.obj [("error", .str "Network or connection error"),
                       ("message", .str (jsonDecodeErrorMessage raw))])

/-- The trace of outbound HTTP attempts available to a call: each call to the
undecorated `get_movie_details` body performs exactly one `requests.get` (there
is no retry loop in the source), so it consumes exactly one outcome and leaves
the rest of the trace untouched.  An empty trace is unreachable (an attempt
always has an outcome); its branch returns a junk value. -/
def runDetails : List UpstreamOutcome → Except PyExc JSON × List UpstreamOutcome
  | o :: rest => (get_movie_details_body o, rest)
  | [] => (.error .jsonDecodeError, [])

/-- Trace semantics of one call to the undecorated `search_movies` body; see
`runDetails`. -/
def runSearch : List UpstreamOutcome → Except PyExc JSON × List UpstreamOutcome
  | o :: rest => (search_movies_body o, rest)
  | [] => (.error .jsonDecodeError, [])

/-- The cache of one `functools.lru_cache(maxsize=...)` wrapper: a bounded
association list ordered most-recently-used first. -/
structure LRU (K : Type) (V : Type) where
  maxsize : Nat
  entries : List (K × V)

/-- Keys currently cached, most recently used first. -/
def LRU.keys {K V : Type} (c : LRU K V) : List K :=
  c.entries.map (fun e => e.1)

/-- One call through an `lru_cache` wrapper around a fallible function `f`:
on a hit, return the stored value and move the entry to the most-recently-used
position without invoking `f`; on a miss, invoke `f` once — if it raises,
nothing is stored and the exception propagates; if it returns, store the value
as most recently used and, when the size would exceed `maxsize`, discard the
least-recently-used entry.  The returned `Bool` records whether `f` was
invoked. -/
def LRU.callE {K V E : Type} [DecidableEq K] (c : LRU K V) (f : K → Except E V) (k : K) :
    Except E (V × LRU K V × Bool) :=
  match c.entries.find? (fun e => decide (e.1 = k)) with
  | some e =>
      .ok (e.2, ⟨c.maxsize, (k, e.2) :: c.entries.eraseP (fun e => decide (e.1 = k))⟩, false)
  | none =>
      match f k with
      | .error err => .error err
      | .ok v =>
          let es := (k, v) :: c.entries
          .ok (v, ⟨c.maxsize, if c.maxsize < es.length then es.dropLast else es⟩, true)

/-- One call through an `lru_cache` wrapper around a non-raising function. -/
def LRU.call {K V : Type} [DecidableEq K] (c : LRU K V) (f : K → V) (k : K) :
    V × LRU K V × Bool :=
  match c.entries.find? (fun e => decide (e.1 = k)) with
  | some e =>
      (e.2, ⟨c.maxsize, (k, e.2) :: c.entries.eraseP (fun e => decide (e.1 = k))⟩, false)
  | none =>
      let v := f k
      let es := (k, v) :: c.entries
      (v, ⟨c.maxsize, if c.maxsize < es.length then es.dropLast else es⟩, true)

/-- Fold a sequence of cached calls (the resulting cache states) over a list
of keys. -/
def LRU.runKeys {K V : Type} [DecidableEq K] (c : LRU K V) (f : K → V) (ks : List K) :
    LRU K V :=
  ks.foldl (fun c k => (c.call f k).2.1) c

/-- Environment configuration read by `movie_client.py` via `os.getenv`. -/
structure Env where
  tmdb_base_url : Option String
  tmdb_api_key : Option String

/-- Python truthiness test `not self.API_KEY` on an optional string
(`os.getenv` returns `None` when unset; the empty string is also falsy). -/
def optStrFalsy (s : Option String) : Bool :=
  match s with
  | none => true
  | some s => decide (s = "")

/-- The `MovieAPIClient` together with the two `lru_cache` caches attached to
its decorated methods.  (In CPython the caches live on the class-level wrapper
and key on `(self, args)`; `main.py` creates exactly one instance, so keying
the per-instance caches on the remaining argument is equivalent.) -/
structure MovieAPIClient where
  base_url : Option String
  api_key : String
  headers : List (String × String)
  detailsCache : LRU Int JSON
  searchCache : LRU String JSON

/-- `MovieAPIClient.__init__`: raises `ValueError` when the API key is unset
or empty, otherwise builds the headers; the fresh `lru_cache` wrappers have
empty caches with `maxsize=128` (details) and `maxsize=32` (search). -/
def MovieAPIClient.init (env : Env) : Except String MovieAPIClient :=
  if optStrFalsy env.tmdb_api_key then
    .error "TMDB_API_KEY environmental variable value not set. Please check your .env file."
  else
    let key := env.tmdb_api_key.getD ""
    .ok { base_url := env.tmdb_base_url
          api_key := key
          headers := [("Authorization", "Bearer " ++ key), ("accept", "application/json")]
          detailsCache := ⟨128, []⟩
          searchCache := ⟨32, []⟩ }

/-- The `lru_cache(maxsize=128)`-wrapped `get_movie_details`, as a function of
the upstream behaviour for this call (outcome of the single `requests.get`
per invoked key).  Returns the result, the updated client, and whether the
wrapped body was invoked. -/
def MovieAPIClient.get_movie_details (c : MovieAPIClient)
    (upstream : Int → UpstreamOutcome) (movie_id : Int) :
    Except PyExc (JSON × MovieAPIClient × Bool) :=
  match c.detailsCache.callE (fun m => get_movie_details_body (upstream m)) movie_id with
  | .error e => .error e
  | .ok (v, cache, invoked) => .ok (v, { c with detailsCache := cache }, invoked)

/-- The `lru_cache(maxsize=32)`-wrapped `search_movies`; see
`MovieAPIClient.get_movie_details`. -/
def MovieAPIClient.search_movies (c : MovieAPIClient)
    (upstream : String → UpstreamOutcome) (query : String) :
    Except PyExc (JSON × MovieAPIClient × Bool) :=
  match c.searchCache.callE (fun q => search_movies_body (upstream q)) query with
  | .error e => .error e
  | .ok (v, cache, invoked) => .ok (v, { c with searchCache := cache }, invoked)

/-- Module-level `tmdb_client` initialization in `main.py`: a `ValueError`
from the constructor is caught and the client set to `None`. -/
def initTmdbClient (env : Env) : Option MovieAPIClient :=
  match MovieAPIClient.init env with
  | .ok c => some c
  | .error _ => none

/-- Pydantic coercion to an `int` field: integers pass; integral floats are
accepted (lax mode); numeric strings of integer literals are accepted (other
numeric-string forms are not modelled — no property here feeds them);
everything else (including `None`) fails validation. -/
def coerceInt (j : JSON) : Option Int :=
  match j with
  | .num q => if q.den = 1 then some q.num else none
  | .str s => s.toInt?
  | _ => none

/-- Pydantic coercion to a `float` field (modelled over rationals; decimal
strings are modelled for integer literals only — no property here feeds
them). -/
def coerceFloat (j : JSON) : Option Rat :=
  match j with
  | .num q => some q
  | .str s => (s.toInt?).map (fun n => (n : Rat))
  | _ => none

/-- Pydantic coercion to a `str` field (pydantic v2 does not coerce numbers
to strings). -/
def coerceStr (j : JSON) : Option String :=
  match j with
  | .str s => some s
  | _ => none

/-- Pydantic coercion to an `Optional[str]` field with default `None`. -/
def coerceOptStr (j : JSON) : Option (Option String) :=
  match j with
  | .null => some none
  | .str s => some (some s)
  | _ => none

/-- Response model `MovieDetailsResponse` of `main.py` (the measured
`duration_ms` float is carried opaquely as an integer parameter; no property
here inspects it). -/
structure MovieDetailsResponse where
  movie_id : Int
  title : String
  release_date : Option String
  rating : Rat
  summary : String
  duration_ms : Int
deriving DecidableEq, Repr

/-- Response model `MovieSearchResult` of `main.py`. -/
structure MovieSearchResult where
  movie_id : Int
  title : String
  release_date : Option String
deriving DecidableEq, Repr

/-- Response model `SearchResponse` of `main.py`. -/
structure SearchResponse where
  query : String
  total_results : Int
  results : List MovieSearchResult
  duration_ms : Int
deriving DecidableEq, Repr

/-- Outcome of a route handler: a raised `HTTPException` (status code and
detail) or a validated response value. -/
inductive Endpoint (α : Type) where
  | httpError : Nat → String → Endpoint α
  | success : α → Endpoint α
deriving DecidableEq, Repr

/-- The mapping-and-validation `try` block of `get_movie` (`main.py` lines
105–123): build `MovieDetailsResponse` from `movie_data.get(...)`; any
exception in the block (an `AttributeError` from `.get` on a non-dict, or a
pydantic `ValidationError`) is caught by `except Exception` and surfaces as
`none` (the handler then raises HTTP 500). -/
def validateDetails (movie_data : JSON) (duration_ms : Int) : Option MovieDetailsResponse :=
  match movie_data with
  | .obj kvs => do
      let mid ← coerceInt ((jsonLookup kvs "id").getD .null)
      let t ← coerceStr ((jsonLookup kvs "title").getD .null)
      let rd ← coerceOptStr ((jsonLookup kvs "release_date").getD .null)
      let r ← coerceFloat ((jsonLookup kvs "vote_average").getD .null)
      let s ← coerceStr ((jsonLookup kvs "overview").getD .null)
      pure ⟨mid, t, rd, r, s, duration_ms⟩
  | _ => none

/-- One entry of the search mapping loop: `MovieSearchResult(movie_id=
item.get("id"), title=item.get("title"), release_date=item.get("release_date"))`;
a non-dict item raises `AttributeError`, caught by the surrounding
`except Exception` (surfacing as `none`, hence HTTP 500). -/
def validateSearchItem (item : JSON) : Option MovieSearchResult :=
  match item with
  | .obj kvs => do
      let mid ← coerceInt ((jsonLookup kvs "id").getD .null)
      let t ← coerceStr ((jsonLookup kvs "title").getD .null)
      let rd ← coerceOptStr ((jsonLookup kvs "release_date").getD .null)
      pure ⟨mid, t, rd⟩
  | _ => none

/-- The `for item in search_data.get("results", [])` loop; iterating a
non-list raises inside the `try` (surfacing as `none`, hence HTTP 500). -/
def validateSearchItems (results : JSON) : Option (List MovieSearchResult) :=
  match results with
  | .arr items => items.mapM validateSearchItem
  | _ => none

/-- The mapping-and-validation `try` block of `search_movie` (`main.py` lines
165–181): map the items, then build `SearchResponse` with
`total_results=search_data.get("total_results", len(results_list))`; any
exception in the block is caught by `except Exception` and surfaces as `none`
(the handler then raises HTTP 500).  A non-dict `search_data` raises
`AttributeError` at `search_data.get(...)`, also inside the `try`. -/
def validateSearch (search_data : JSON) (query : String) (duration_ms : Int) :
    Option SearchResponse :=
  match search_data with
  | .obj kvs => do
      let results ← validateSearchItems ((jsonLookup kvs "results").getD (.arr []))
      let tr ← coerceInt ((jsonLookup kvs "total_results").getD (.num (results.length : Rat)))
      pure ⟨query, tr, results, duration_ms⟩
  | _ => none

/-- Detail of the HTTP 503 raised when the module-level client is `None`. -/
def clientUnavailableDetail : String :=
  "External API Client failed to initialize. Check environment variables."

/-- Detail of the HTTP 500 raised when a client result dict carries an
`"error"` key: an f-string prefixing "External API Error: " to the value of
the message field, with default "Check client logs." (identical in both
handlers). -/
def clientErrorDetail (data : JSON) : String :=
  "External API Error: " ++ pyStr (jsonGetD data "message" (.str "Check client logs."))

/-- Route handler `get_movie` (`GET /movies/\x7bmovie_id\x7d`): 503 when the
client is `None`; otherwise call the cached `get_movie_details` (an exception
escaping it propagates out of the handler); 404 when the result is `None`;
500 when the result is a dict with an `"error"` key; otherwise map/validate
(500 on failure).  Returns the outcome together with the updated module-level
client state. -/
def get_movie (tmdb_client : Option MovieAPIClient) (upstream : Int → UpstreamOutcome)
    (movie_id : Int) (duration_ms : Int) :
    Except PyExc (Endpoint MovieDetailsResponse × Option MovieAPIClient) :=
  match tmdb_client with
  | none => .ok (.httpError 503 clientUnavailableDetail, none)
  | some client =>
      match client.get_movie_details upstream movie_id with
      | .error e => .error e
      | .ok (movie_data, client', _) =>
          if jsonIsNull movie_data then
            .ok (.httpError 404 ("Movie with ID " ++ toString movie_id ++ " not found."),
                 some client')
          else if jsonIsDict movie_data && jsonHasKey movie_data "error" then
            .ok (.httpError 500 (clientErrorDetail movie_data), some client')
          else
            match validateDetails movie_data duration_ms with
            | some resp => .ok (.success resp, some client')
            | none =>
                .ok (.httpError 500
                      "Error processing external data structure. Internal service error.",
                     some client')

/-- Route handler `search_movie` (`GET /search`): 503 when the client is
`None`; otherwise call the cached `search_movies`; 500 when the result is a
dict with an `"error"` key; the guard `not search_data or "results" not in
search_data` (short-circuit: the membership test only runs on truthy values
and may raise `TypeError`) returns an empty success response; otherwise
map/validate (500 on failure). -/
def search_movie (tmdb_client : Option MovieAPIClient) (upstream : String → UpstreamOutcome)
    (query : String) (duration_ms : Int) :
    Except PyExc (Endpoint SearchResponse × Option MovieAPIClient) :=
  match tmdb_client with
  | none => .ok (.httpError 503 clientUnavailableDetail, none)
  | some client =>
      match client.search_movies upstream query with
      | .error e => .error e
      | .ok (search_data, client', _) =>
          if jsonIsDict search_data && jsonHasKey search_data "error" then
            .ok (.httpError 500 (clientErrorDetail search_data), some client')
          else if !pyTruthy search_data then
            .ok (.success ⟨query, 0, [], duration_ms⟩, some client')
          else
            match pyContainsStr "results" search_data with
            | .error e => .error e
            | .ok false => .ok (.success ⟨query, 0, [], duration_ms⟩, some client')
            | .ok true =>
                match validateSearch search_data query duration_ms with
                | some resp => .ok (.success resp, some client')
                | none =>
                    .ok (.httpError 500
                          "Error processing external search results. Internal service error.",
                         some client')

/-- Route handler `root` (`GET /`): independent of the client state. -/
def root (_tmdb_client : Option MovieAPIClient) : JSON :=
  .obj [("message",
         .str "Movie Info Wrapper API is running. Go to /docs for interactive documentation.")]

/-! Helper lemmas about the `lru_cache` model. -/

theorem LRU.find?_eq_none_of_not_mem {K V : Type} [DecidableEq K] (c : LRU K V) (k : K)
    (h : k ∉ c.keys) : c.entries.find? (fun e => decide (e.1 = k)) = none := by
  rw [List.find?_eq_none]
  intro e he hp
  exact h (by
    simp only [LRU.keys, List.mem_map]
    exact ⟨e, he, of_decide_eq_true hp⟩)

theorem LRU.evict_cons {K V : Type} (n : Nat) (x : K × V) (l : List (K × V)) (hn : 0 < n) :
    ∃ t, (if n < (x :: l).length then (x :: l).dropLast else x :: l) = x :: t := by
  cases l with
  | nil =>
      refine ⟨[], ?_⟩
      simp only [List.length_singleton]
      rw [if_neg (by omega)]
  | cons y ys =>
      by_cases h : n < (x :: y :: ys).length
      · exact ⟨(y :: ys).dropLast, by rw [if_pos h, List.dropLast_cons₂]⟩
      · exact ⟨y :: ys, by rw [if_neg h]⟩

theorem LRU.callE_hit {K V E : Type} [DecidableEq K] (c : LRU K V) (g : K → Except E V)
    (k : K) (v : V) (t : List (K × V)) (hent : c.entries = (k, v) :: t) :
    ∃ c₂, c.callE g k = .ok (v, c₂, false) := by
  refine ⟨⟨c.maxsize, (k, v) :: ((k, v) :: t).eraseP (fun e => decide (e.1 = k))⟩, ?_⟩
  unfold LRU.callE
  rw [hent, List.find?_cons_of_pos _ (by simp)]

theorem LRU.callE_miss_then_hit {K V E F : Type} [DecidableEq K] (c : LRU K V)
    (f : K → Except E V) (g : K → Except F V) (k : K) (v : V)
    (hmax : 0 < c.maxsize) (habs : k ∉ c.keys) (hf : f k = .ok v) :
    ∃ c₁ : LRU K V, c.callE f k = .ok (v, c₁, true) ∧
      ∃ c₂, c₁.callE g k = .ok (v, c₂, false) := by
  obtain ⟨t, ht⟩ := LRU.evict_cons c.maxsize (k, v) c.entries hmax
  refine ⟨⟨c.maxsize, (k, v) :: t⟩, ?_, ?_⟩
  · unfold LRU.callE
    rw [LRU.find?_eq_none_of_not_mem c k habs, hf]
    simp only [List.length_cons] at ht
    simp only [List.length_cons, ht]
  · exact LRU.callE_hit _ g k v t rfl

theorem LRU.call_maxsize {K V : Type} [DecidableEq K] (c : LRU K V) (f : K → V) (k : K) :
    (c.call f k).2.1.maxsize = c.maxsize := by
  unfold LRU.call
  cases c.entries.find? (fun e => decide (e.1 = k)) <;> simp

theorem LRU.call_length_le {K V : Type} [DecidableEq K] (c : LRU K V) (f : K → V) (k : K)
    (h : c.entries.length ≤ c.maxsize) :
    (c.call f k).2.1.entries.length ≤ c.maxsize := by
  unfold LRU.call
  cases hf : c.entries.find? (fun e => decide (e.1 = k)) with
  | some e =>
      have hmem : e ∈ c.entries := List.mem_of_find?_eq_some hf
      have hpe := List.find?_some hf
      have hpos : 0 < c.entries.length := List.length_pos.mpr (by
        intro hnil
        rw [hnil] at hmem
        exact (List.not_mem_nil e) hmem)
      have hany : c.entries.any (fun e => decide (e.1 = k)) = true :=
        List.any_eq_true.mpr ⟨e, hmem, hpe⟩
      simp only [List.length_cons, List.length_eraseP, hany, if_true]
      omega
  | none =>
      dsimp only
      split
      next hlt => simp only [List.length_dropLast, List.length_cons]; omega
      next hge => simp only [List.length_cons] at hge ⊢; omega

theorem LRU.runKeys_length_le_aux {K V : Type} [DecidableEq K] (f : K → V) (ks : List K) :
    ∀ c : LRU K V, c.entries.length ≤ c.maxsize →
      ((c.runKeys f ks).entries.length ≤ c.maxsize ∧ (c.runKeys f ks).maxsize = c.maxsize) := by
  induction ks with
  | nil => intro c h; exact ⟨h, rfl⟩
  | cons k ks ih =>
      intro c h
      have hstep : ((c.call f k).2.1.entries.length ≤ (c.call f k).2.1.maxsize) := by
        rw [LRU.call_maxsize]
        exact LRU.call_length_le c f k h
      have := ih (c.call f k).2.1 hstep
      unfold LRU.runKeys
      simp only [List.foldl_cons]
      unfold LRU.runKeys at this
      rw [LRU.call_maxsize] at this
      exact this

theorem LRU.runKeys_length_le {K V : Type} [DecidableEq K] (n : Nat) (f : K → V)
    (ks : List K) : ((⟨n, []⟩ : LRU K V).runKeys f ks).entries.length ≤ n :=
  (LRU.runKeys_length_le_aux f ks ⟨n, []⟩ (by simp)).1

theorem LRU.call_miss_no_evict {K V : Type} [DecidableEq K] (n : Nat) (es : List (K × V))
    (f : K → V) (k : K) (habs : k ∉ (⟨n, es⟩ : LRU K V).keys) (hlen : es.length + 1 ≤ n) :
    ((⟨n, es⟩ : LRU K V).call f k).2.1 = ⟨n, (k, f k) :: es⟩ := by
  unfold LRU.call
  rw [LRU.find?_eq_none_of_not_mem _ k habs]
  dsimp only
  rw [if_neg (by simp only [List.length_cons]; omega)]

theorem LRU.runKeys_fill {K V : Type} [DecidableEq K] (f : K → V) (n : Nat) :
    ∀ (ks : List K) (es : List (K × V)), ks.Nodup →
      (∀ k ∈ ks, k ∉ (⟨n, es⟩ : LRU K V).keys) →
      es.length + ks.length ≤ n →
      (⟨n, es⟩ : LRU K V).runKeys f ks = ⟨n, (ks.map (fun k => (k, f k))).reverse ++ es⟩ := by
  intro ks
  induction ks with
  | nil => intro es _ _ _; simp [LRU.runKeys]
  | cons k ks ih =>
      intro es hnd hdisj hlen
      have hstep : ((⟨n, es⟩ : LRU K V).call f k).2.1 = ⟨n, (k, f k) :: es⟩ :=
        LRU.call_miss_no_evict n es f k (hdisj k (List.mem_cons_self k ks)) (by
          simp only [List.length_cons] at hlen; omega)
      have hrest := ih ((k, f k) :: es) hnd.of_cons (by
        intro k' hk'
        simp only [LRU.keys, List.map_cons, List.mem_cons]
        push_neg
        constructor
        · intro hkk
          rw [hkk] at hk'
          exact (List.nodup_cons.mp hnd).1 hk'
        · have := hdisj k' (List.mem_cons_of_mem k hk')
          simpa [LRU.keys] using this) (by
        simp only [List.length_cons] at hlen ⊢; omega)
      unfold LRU.runKeys at hrest ⊢
      simp only [List.foldl_cons, hstep, hrest, List.map_cons, List.reverse_cons]
      simp

theorem LRU.call_miss_flag {K V : Type} [DecidableEq K] (c : LRU K V) (f : K → V) (k : K)
    (habs : k ∉ c.keys) : (c.call f k).2.2 = true := by
  unfold LRU.call
  rw [LRU.find?_eq_none_of_not_mem c k habs]

theorem LRU.evict_lru_of_overflow {K V : Type} [DecidableEq K] (f : K → V) (n : Nat)
    (k : K) (ks : List K) (hnd : (k :: ks).Nodup) (hlen : ks.length = n) :
    ((⟨n, []⟩ : LRU K V).runKeys f (k :: ks)).keys = ks.reverse ∧
    (((⟨n, []⟩ : LRU K V).runKeys f (k :: ks)).call f k).2.2 = true := by
  have hknotin : k ∉ ks := (List.nodup_cons.mp hnd).1
  have hksnd : ks.Nodup := (List.nodup_cons.mp hnd).2
  cases n with
  | zero =>
      have hksnil : ks = [] := List.length_eq_zero.mp hlen
      subst hksnil
      constructor
      · simp [LRU.runKeys, LRU.call, LRU.keys]
      · apply LRU.call_miss_flag
        simp [LRU.runKeys, LRU.call, LRU.keys]
  | succ m =>
      obtain hnil | ⟨ks', klast, hconcat⟩ := List.eq_nil_or_concat ks
      · rw [hnil] at hlen; simp at hlen
      rw [List.concat_eq_append] at hconcat
      subst hconcat
      have hlen' : ks'.length = m := by
        simp only [List.length_append, List.length_singleton] at hlen; omega
      have hklast_notin : klast ∉ ks' := by
        intro hmem
        have := List.nodup_append.mp hksnd
        exact this.2.2 hmem (List.mem_singleton_self klast)
      have hkne : k ≠ klast := by
        intro he
        exact hknotin (by rw [he]; exact List.mem_append_right ks' (List.mem_singleton_self klast))
      have hkks' : k ∉ ks' := fun hmem => hknotin (List.mem_append_left _ hmem)
      -- first call: fills the fresh cache with k (no eviction since 1 ≤ m+1)
      have hstep1 : ((⟨m + 1, []⟩ : LRU K V).call f k).2.1 = ⟨m + 1, [(k, f k)]⟩ :=
        LRU.call_miss_no_evict (m + 1) [] f k (by simp [LRU.keys]) (by simp)
      -- next m calls: fill to capacity
      have hfill := LRU.runKeys_fill f (m + 1) ks' [(k, f k)] (List.Nodup.of_append_left hksnd)
        (by
          intro k' hk'
          simp only [LRU.keys, List.map_cons, List.map_nil, List.mem_singleton]
          intro he
          exact hkks' (he ▸ hk'))
        (by simp only [List.length_singleton, hlen']; omega)
      -- final call on klast: inserts and evicts the LRU entry (k)
      have hfinal_abs : klast ∉ (⟨m + 1, (ks'.map (fun k => (k, f k))).reverse ++ [(k, f k)]⟩ :
          LRU K V).keys := by
        simp only [LRU.keys, List.map_append, List.map_reverse, List.map_map, List.map_cons,
          List.map_nil, List.mem_append, List.mem_reverse, List.mem_map, List.mem_singleton]
        push_neg
        constructor
        · intro x hx
          simp only [Function.comp]
          intro he
          exact hklast_notin (he ▸ hx)
        · exact fun he => hkne he.symm
      have hdecomp : (⟨m + 1, []⟩ : LRU K V).runKeys f (k :: (ks' ++ [klast])) =
          (((⟨m + 1, []⟩ : LRU K V).runKeys f (k :: ks')).call f klast).2.1 := by
        unfold LRU.runKeys
        rw [show k :: (ks' ++ [klast]) = (k :: ks') ++ [klast] by simp]
        rw [List.foldl_append]
        simp
      have hpref : (⟨m + 1, []⟩ : LRU K V).runKeys f (k :: ks') =
          ⟨m + 1, (ks'.map (fun k => (k, f k))).reverse ++ [(k, f k)]⟩ := by
        unfold LRU.runKeys
        simp only [List.foldl_cons]
        rw [show ((⟨m + 1, []⟩ : LRU K V).call f k).2.1 = ⟨m + 1, [(k, f k)]⟩ from hstep1]
        exact hfill
      have hfinlen : ((ks'.map (fun k => (k, f k))).reverse ++ [(k, f k)]).length = m + 1 := by
        simp [hlen']
      have hfinal : (⟨m + 1, []⟩ : LRU K V).runKeys f (k :: (ks' ++ [klast])) =
          ⟨m + 1, (klast, f klast) :: (ks'.map (fun k => (k, f k))).reverse⟩ := by
        rw [hdecomp, hpref]
        unfold LRU.call
        rw [LRU.find?_eq_none_of_not_mem _ klast hfinal_abs]
        dsimp only
        rw [if_pos (by simp only [List.length_cons, hfinlen]; omega)]
        have : (klast, f klast) :: ((ks'.map (fun k => (k, f k))).reverse ++ [(k, f k)]) =
            ((klast, f klast) :: (ks'.map (fun k => (k, f k))).reverse) ++ [(k, f k)] := by
          simp
        rw [this, List.dropLast_concat]
      constructor
      · rw [hfinal]
        simp [LRU.keys, Function.comp_def]
      · apply LRU.call_miss_flag
        rw [hfinal]
        simp only [LRU.keys, List.map_cons, List.map_reverse, List.map_map, List.mem_cons,
          List.mem_reverse, List.mem_map, Function.comp_def]
        push_neg
        exact ⟨hkne, fun x hx he => hkks' (he ▸ hx)⟩

/-- Sample environment with a set API key, used to build concrete witnesses. -/
def sampleEnv : Env := ⟨none, some "k"⟩

/-- The concrete client that `MovieAPIClient.init sampleEnv` constructs:
fresh caches of capacities 128 and 32. -/
def sampleClient : MovieAPIClient :=
  { base_url := none
    api_key := "k"
    headers := [("Authorization", "Bearer k"), ("accept", "application/json")]
    detailsCache := ⟨128, []⟩
    searchCache := ⟨32, []⟩ }

/-- C1: memoization correctness.  For a key (a movie id for
`get_movie_details`, a query string for `search_movies`) not in the
cache of that operation, the first cached call invokes the wrapped upstream
operation exactly once (the invocation flag is `true`; each call invokes the
body at most once by construction) and returns its value; a second call with
the same key — under any later upstream behaviour — invokes the body zero
times (flag `false`) and returns the identical stored value. -/
theorem memoization_correctness (c : MovieAPIClient)
    (up up2 : Int → UpstreamOutcome) (sup sup2 : String → UpstreamOutcome)
    (movie_id : Int) (query : String) (v w : JSON)
    (hdmax : 0 < c.detailsCache.maxsize) (hsmax : 0 < c.searchCache.maxsize)
    (hdabs : movie_id ∉ c.detailsCache.keys) (hsabs : query ∉ c.searchCache.keys)
    (hup : get_movie_details_body (up movie_id) = .ok v)
    (hsup : search_movies_body (sup query) = .ok w) :
    (∃ c₁, c.get_movie_details up movie_id = .ok (v, c₁, true) ∧
       ∃ c₂, c₁.get_movie_details up2 movie_id = .ok (v, c₂, false)) ∧
    (∃ d₁, c.search_movies sup query = .ok (w, d₁, true) ∧
       ∃ d₂, d₁.search_movies sup2 query = .ok (w, d₂, false)) := by
  constructor
  · obtain ⟨c₁, h1, c₂, h2⟩ :=
      LRU.callE_miss_then_hit c.detailsCache (fun m => get_movie_details_body (up m))
        (fun m => get_movie_details_body (up2 m)) movie_id v hdmax hdabs hup
    refine ⟨{ c with detailsCache := c₁ }, ?_, { c with detailsCache := c₂ }, ?_⟩
    · unfold MovieAPIClient.get_movie_details
      rw [h1]
    · unfold MovieAPIClient.get_movie_details
      rw [show ({ c with detailsCache := c₁ } : MovieAPIClient).detailsCache = c₁ from rfl, h2]
  · obtain ⟨d₁, h1, d₂, h2⟩ :=
      LRU.callE_miss_then_hit c.searchCache (fun q => search_movies_body (sup q))
        (fun q => search_movies_body (sup2 q)) query w hsmax hsabs hsup
    refine ⟨{ c with searchCache := d₁ }, ?_, { c with searchCache := d₂ }, ?_⟩
    · unfold MovieAPIClient.search_movies
      rw [h1]
    · unfold MovieAPIClient.search_movies
      rw [show ({ c with searchCache := d₁ } : MovieAPIClient).searchCache = d₁ from rfl, h2]

/-- Witness for C1 at concrete inputs: a fresh client, an upstream returning
a 200 payload for id 1 and for query "a". -/
theorem memoization_correctness_witness :
    (∃ c₁, sampleClient.get_movie_details (fun _ => .response ⟨200, .jsonBody (.obj [])⟩) 1 =
        .ok (.obj [], c₁, true) ∧
       ∃ c₂, c₁.get_movie_details (fun _ => .requestFailure "down") 1 =
        .ok (.obj [], c₂, false)) ∧
    (∃ d₁, sampleClient.search_movies (fun _ => .response ⟨200, .jsonBody (.arr [])⟩) "a" =
        .ok (.arr [], d₁, true) ∧
       ∃ d₂, d₁.search_movies (fun _ => .requestFailure "down") "a" =
        .ok (.arr [], d₂, false)) :=
  memoization_correctness sampleClient
    (fun _ => .response ⟨200, .jsonBody (.obj [])⟩) (fun _ => .requestFailure "down")
    (fun _ => .response ⟨200, .jsonBody (.arr [])⟩) (fun _ => .requestFailure "down")
    1 "a" (.obj []) (.arr [])
    (by decide) (by decide) (by simp [LRU.keys, sampleClient]) (by simp [LRU.keys, sampleClient])
    (by simp [get_movie_details_body]) (by simp [search_movies_body])

/-- C2: bounded-capacity LRU invariant.  The two per-operation caches are
created empty with capacities 128 (detail lookups) and 32 (searches); for
every sequence of cached calls from the fresh cache the entry count never
exceeds the capacity; and inserting capacity+1 distinct keys evicts exactly
the least-recently-used (first) key — the surviving keys are precisely the
later ones — so the evicted key misses (the wrapped operation is invoked) on
a subsequent lookup. -/
theorem lru_capacity_invariant_and_eviction :
    (∀ env c, initTmdbClient env = some c →
        c.detailsCache = ⟨128, []⟩ ∧ c.searchCache = ⟨32, []⟩) ∧
    (∀ (K V : Type) [DecidableEq K] (n : Nat) (f : K → V) (ks : List K),
        ((⟨n, []⟩ : LRU K V).runKeys f ks).entries.length ≤ n) ∧
    (∀ (K V : Type) [DecidableEq K] (n : Nat) (f : K → V) (k : K) (ks : List K),
        (k :: ks).Nodup → ks.length = n →
        ((⟨n, []⟩ : LRU K V).runKeys f (k :: ks)).keys = ks.reverse ∧
        (((⟨n, []⟩ : LRU K V).runKeys f (k :: ks)).call f k).2.2 = true) := by
  refine ⟨?_, ?_, ?_⟩
  · intro env c h
    unfold initTmdbClient at h
    split at h
    next c0 heq =>
      simp only [Option.some.injEq] at h
      subst h
      unfold MovieAPIClient.init at heq
      split at heq
      · exact absurd heq (by simp)
      · simp only [Except.ok.injEq] at heq
        subst heq
        exact ⟨rfl, rfl⟩
    next heq => exact absurd h (by simp)
  · intro K V _ n f ks
    exact LRU.runKeys_length_le n f ks
  · intro K V _ n f k ks hnd hlen
    exact LRU.evict_lru_of_overflow f n k ks hnd hlen

/-- Witness for C2 at concrete inputs: the sample environment yields the
fresh 128/32 caches, and on a capacity-2 cache the keys 5, 6, 7 evict
exactly key 5, which then misses. -/
theorem lru_capacity_invariant_and_eviction_witness :
    (sampleClient.detailsCache = ⟨128, []⟩ ∧ sampleClient.searchCache = ⟨32, []⟩) ∧
    ((⟨2, []⟩ : LRU Nat Nat).runKeys id [5, 6, 7]).entries.length ≤ 2 ∧
    ((⟨2, []⟩ : LRU Nat Nat).runKeys id (5 :: [6, 7])).keys = [6, 7].reverse ∧
    (((⟨2, []⟩ : LRU Nat Nat).runKeys id (5 :: [6, 7])).call id 5).2.2 = true :=
  ⟨lru_capacity_invariant_and_eviction.1 sampleEnv sampleClient rfl,
   lru_capacity_invariant_and_eviction.2.1 Nat Nat 2 id [5, 6, 7],
   (lru_capacity_invariant_and_eviction.2.2 Nat Nat 2 id 5 [6, 7] (by decide) rfl).1,
   (lru_capacity_invariant_and_eviction.2.2 Nat Nat 2 id 5 [6, 7] (by decide) rfl).2⟩

/-- C3: errors are cached like successes.  For a movie id not in the details
cache, if the upstream attempt of the first call fails at transport level, the
call stores and returns the network-error dictionary, and a second call with
the same id — under any later upstream behaviour, including one that would
now succeed — does not invoke the wrapped operation and returns the identical
stored error value; likewise a first call answered with HTTP 404 stores the
not-found marker `None`, which is replayed without a new invocation. -/
theorem errors_cached_like_successes (c : MovieAPIClient)
    (up up2 : Int → UpstreamOutcome) (movie_id : Int) (msg : String) (b : Body)
    (hmax : 0 < c.detailsCache.maxsize) (habs : movie_id ∉ c.detailsCache.keys) :
    (up movie_id = .requestFailure msg →
      ∃ c₁, c.get_movie_details up movie_id =
          .ok (.obj [("error", .str "Network or Connection error"), ("message", .str msg)],
               c₁, true) ∧
        ∃ c₂, c₁.get_movie_details up2 movie_id =
          .ok (.obj [("error", .str "Network or Connection error"), ("message", .str msg)],
               c₂, false)) ∧
    (up movie_id = .response ⟨404, b⟩ →
      ∃ c₁, c.get_movie_details up movie_id = .ok (.null, c₁, true) ∧
        ∃ c₂, c₁.get_movie_details up2 movie_id = .ok (.null, c₂, false)) := by
  constructor
  · intro hup
    obtain ⟨c₁, h1, c₂, h2⟩ :=
      LRU.callE_miss_then_hit c.detailsCache (fun m => get_movie_details_body (up m))
        (fun m => get_movie_details_body (up2 m)) movie_id
        (.obj [("error", .str "Network or Connection error"), ("message", .str msg)])
        hmax habs (by dsimp only; rw [hup]; rfl)
    refine ⟨{ c with detailsCache := c₁ }, ?_, { c with detailsCache := c₂ }, ?_⟩
    · unfold MovieAPIClient.get_movie_details
      rw [h1]
    · unfold MovieAPIClient.get_movie_details
      rw [show ({ c with detailsCache := c₁ } : MovieAPIClient).detailsCache = c₁ from rfl, h2]
  · intro hup
    obtain ⟨c₁, h1, c₂, h2⟩ :=
      LRU.callE_miss_then_hit c.detailsCache (fun m => get_movie_details_body (up m))
        (fun m => get_movie_details_body (up2 m)) movie_id .null hmax habs (by
          dsimp only
          rw [hup]
          simp [get_movie_details_body])
    refine ⟨{ c with detailsCache := c₁ }, ?_, { c with detailsCache := c₂ }, ?_⟩
    · unfold MovieAPIClient.get_movie_details
      rw [h1]
    · unfold MovieAPIClient.get_movie_details
      rw [show ({ c with detailsCache := c₁ } : MovieAPIClient).detailsCache = c₁ from rfl, h2]

/-- Witness for C3 at concrete inputs: a fresh client whose first lookup of
id 7 hits a transport failure; the second lookup replays the cached error
although the upstream would now succeed. -/
theorem errors_cached_like_successes_witness :
    (∃ c₁, sampleClient.get_movie_details (fun _ => .requestFailure "boom") 7 =
        .ok (.obj [("error", .str "Network or Connection error"), ("message", .str "boom")],
             c₁, true) ∧
       ∃ c₂, c₁.get_movie_details (fun _ => .response ⟨200, .jsonBody (.obj [])⟩) 7 =
        .ok (.obj [("error", .str "Network or Connection error"), ("message", .str "boom")],
             c₂, false)) :=
  (errors_cached_like_successes sampleClient (fun _ => .requestFailure "boom")
      (fun _ => .response ⟨200, .jsonBody (.obj [])⟩) 7 "boom" (.rawBody "")
      (by decide) (by simp [LRU.keys, sampleClient])).1 rfl

/-- C4 counterexample: the claim "each client call returns an ordinary value
and no exception escapes the client" is false — on an upstream 500 response
whose body is empty (hence not parseable as JSON), `response.json()` inside
the `except HTTPError` handler raises a `JSONDecodeError` that the later
`except RequestException` clause of the same `try` cannot catch, so the
exception escapes `get_movie_details` instead of an error value with the
generic fallback message being returned. -/
theorem error_capture_counterexample :
    get_movie_details_body (.response ⟨500, .rawBody ""⟩) = .error .jsonDecodeError ∧
    search_movies_body (.response ⟨500, .rawBody ""⟩) = .error .jsonDecodeError := by
  constructor <;> rfl

/-- C4 (amended): total error capture holds except for unparseable error
bodies.  Every transport-level failure returns an error value; every non-2xx
status (other than the details 404) whose body parses to a JSON object
lacking the status message field returns an error value carrying the generic
fallback message "Unknown API error"; but when the body of such a response is
absent or not parseable as JSON, the `JSONDecodeError` raised inside the
`except HTTPError` handler escapes the client. -/
theorem error_capture_boundary (msg raw : String) (code : Nat)
    (kvs : List (String × JSON)) (hc1 : 400 ≤ code) (hc2 : code < 600) (hc3 : code ≠ 404)
    (hmsg : jsonLookup kvs "status_message" = none) :
    (get_movie_details_body (.requestFailure msg) =
       .ok (.obj [("error", .str "Network or Connection error"), ("message", .str msg)])) ∧
    (search_movies_body (.requestFailure msg) =
       .ok (.obj [("error", .str "Network or connection error"), ("message", .str msg)])) ∧
    (get_movie_details_body (.response ⟨code, .jsonBody (.obj kvs)⟩) =
       .ok (.obj [("error", .str ("API error : " ++ toString code)),
                  ("message", .str "Unknown API error")])) ∧
    (search_movies_body (.response ⟨code, .jsonBody (.obj kvs)⟩) =
       .ok (.obj [("error", .str ("API Error: " ++ toString code)),
                  ("message", .str "Unknown API error")])) ∧
    (get_movie_details_body (.response ⟨code, .rawBody raw⟩) = .error .jsonDecodeError) ∧
    (search_movies_body (.response ⟨code, .rawBody raw⟩) = .error .jsonDecodeError) := by
  refine ⟨rfl, rfl, ?_, ?_, ?_, ?_⟩
  · unfold get_movie_details_body
    dsimp only
    rw [if_pos ⟨hc1, hc2⟩, if_neg hc3]
    unfold pyDictGet
    dsimp only
    rw [hmsg]
    rfl
  · unfold search_movies_body
    dsimp only
    rw [if_pos ⟨hc1, hc2⟩]
    unfold pyDictGet
    dsimp only
    rw [hmsg]
    rfl
  · unfold get_movie_details_body
    dsimp only
    rw [if_pos ⟨hc1, hc2⟩, if_neg hc3]
  · unfold search_movies_body
    dsimp only
    rw [if_pos ⟨hc1, hc2⟩]

/-- Witness for the amended C4 at concrete inputs: status 500 with an empty
error object body, and with an unparseable body. -/
theorem error_capture_boundary_witness :
    (get_movie_details_body (.requestFailure "dns failure") =
       .ok (.obj [("error", .str "Network or Connection error"),
                  ("message", .str "dns failure")])) ∧
    (search_movies_body (.requestFailure "dns failure") =
       .ok (.obj [("error", .str "Network or connection error"),
                  ("message", .str "dns failure")])) ∧
    (get_movie_details_body (.response ⟨500, .jsonBody (.obj [])⟩) =
       .ok (.obj [("error", .str ("API error : " ++ toString 500)),
                  ("message", .str "Unknown API error")])) ∧
    (search_movies_body (.response ⟨500, .jsonBody (.obj [])⟩) =
       .ok (.obj [("error", .str ("API Error: " ++ toString 500)),
                  ("message", .str "Unknown API error")])) ∧
    (get_movie_details_body (.response ⟨500, .rawBody "<html>"⟩) = .error .jsonDecodeError) ∧
    (search_movies_body (.response ⟨500, .rawBody "<html>"⟩) = .error .jsonDecodeError) :=
  error_capture_boundary "dns failure" "<html>" 500 []
    (by decide) (by decide) (by decide) rfl

/-- C7: network-failure normalization with a single attempt.  When the one
`requests.get` of a client call fails at transport level, the call consumes
exactly one outcome of the attempt trace (no internal retry — the remainder
of the trace is returned untouched) and returns an error value tagged as a
network/connection error whose message is the message of the underlying
failure. -/
theorem network_failure_single_attempt (msg : String) (rest : List UpstreamOutcome) :
    runDetails (.requestFailure msg :: rest) =
      (.ok (.obj [("error", .str "Network or Connection error"), ("message", .str msg)]),
       rest) ∧
    runSearch (.requestFailure msg :: rest) =
      (.ok (.obj [("error", .str "Network or connection error"), ("message", .str msg)]),
       rest) :=
  ⟨rfl, rfl⟩

/-- C5: not-found semantics.  A detail lookup answered with HTTP 404 (any
body) returns the not-found indicator `None` and not an error value; the
`get_movie` handler surfaces a `None` client result as HTTP 404 "Movie with
ID ... not found."; a search answered with HTTP 404 never produces the
not-found indicator (it yields an error value or raises); and the search
endpoint never surfaces a 404 response. -/
theorem not_found_semantics (client c' : MovieAPIClient) (up : Int → UpstreamOutcome)
    (movie_id : Int) (d : Int) (invoked : Bool)
    (hclient : client.get_movie_details up movie_id = .ok (JSON.null, c', invoked)) :
    (∀ b, get_movie_details_body (.response ⟨404, b⟩) = .ok JSON.null) ∧
    (get_movie (some client) up movie_id d =
      .ok (.httpError 404 ("Movie with ID " ++ toString movie_id ++ " not found."),
           some c')) ∧
    (∀ b, search_movies_body (.response ⟨404, b⟩) ≠ .ok JSON.null) ∧
    (∀ tc sup q dq out st, search_movie tc sup q dq = .ok (out, st) →
        ∀ detail, out ≠ Endpoint.httpError 404 detail) := by
  refine ⟨?_, ?_, ?_, ?_⟩
  · intro b
    unfold get_movie_details_body
    dsimp only
    rw [if_pos (by omega : (400:Nat) ≤ 404 ∧ (404:Nat) < 600), if_pos rfl]
  · unfold get_movie
    dsimp only
    rw [hclient]
    dsimp only
    rw [if_pos (by rfl : jsonIsNull JSON.null = true)]
  · intro b
    cases b with
    | jsonBody j =>
        unfold search_movies_body
        dsimp only
        rw [if_pos (by omega : (400:Nat) ≤ 404 ∧ (404:Nat) < 600)]
        cases j <;> simp [pyDictGet]
    | rawBody raw =>
        unfold search_movies_body
        dsimp only
        rw [if_pos (by omega : (400:Nat) ≤ 404 ∧ (404:Nat) < 600)]
        simp
  · intro tc sup q dq out st h detail
    cases tc with
    | none =>
        unfold search_movie at h
        simp only [Except.ok.injEq, Prod.mk.injEq] at h
        rw [← h.1]
        simp
    | some client2 =>
        unfold search_movie at h
        dsimp only at h
        cases hc : client2.search_movies sup q with
        | error e =>
            rw [hc] at h
            exact absurd h (by simp)
        | ok r =>
            obtain ⟨v, c2, binv⟩ := r
            rw [hc] at h
            dsimp only at h
            by_cases h1 : (jsonIsDict v && jsonHasKey v "error") = true
            · rw [if_pos h1] at h
              simp only [Except.ok.injEq, Prod.mk.injEq] at h
              rw [← h.1]; simp
            · rw [if_neg h1] at h
              by_cases h2 : (!pyTruthy v) = true
              · rw [if_pos h2] at h
                simp only [Except.ok.injEq, Prod.mk.injEq] at h
                rw [← h.1]; simp
              · rw [if_neg h2] at h
                cases hpc : pyContainsStr "results" v with
                | error e =>
                    rw [hpc] at h
                    exact absurd h (by simp)
                | ok bres =>
                    rw [hpc] at h
                    cases bres with
                    | false =>
                        dsimp only at h
                        simp only [Except.ok.injEq, Prod.mk.injEq] at h
                        rw [← h.1]; simp
                    | true =>
                        dsimp only at h
                        cases hv : validateSearch v q dq with
                        | some resp =>
                            rw [hv] at h
                            simp only [Except.ok.injEq, Prod.mk.injEq] at h
                            rw [← h.1]; simp
                        | none =>
                            rw [hv] at h
                            simp only [Except.ok.injEq, Prod.mk.injEq] at h
                            rw [← h.1]; simp

/-- Witness for C5 at concrete inputs: a fresh client looking up id 9 against
an upstream that reports 404. -/
theorem not_found_semantics_witness :
    (∀ b, get_movie_details_body (.response ⟨404, b⟩) = .ok JSON.null) ∧
    (get_movie (some sampleClient) (fun _ => .response ⟨404, .rawBody ""⟩) 9 0 =
      .ok (.httpError 404 ("Movie with ID " ++ toString 9 ++ " not found."),
           some { sampleClient with detailsCache := ⟨128, [(9, JSON.null)]⟩ })) ∧
    (∀ b, search_movies_body (.response ⟨404, b⟩) ≠ .ok JSON.null) ∧
    (∀ tc sup q dq out st, search_movie tc sup q dq = .ok (out, st) →
        ∀ detail, out ≠ Endpoint.httpError 404 detail) :=
  not_found_semantics sampleClient
    { sampleClient with detailsCache := ⟨128, [(9, JSON.null)]⟩ }
    (fun _ => .response ⟨404, .rawBody ""⟩) 9 0 true (by
      unfold MovieAPIClient.get_movie_details LRU.callE
      dsimp only [sampleClient]
      rfl)

/-- C6: configuration-error fatality is scoped.  When the credential is
absent (unset or empty), `MovieAPIClient.__init__` raises `ValueError`, the
module-level client is `None`, every request to the two movie-data routes
returns HTTP 503 (a 503-equivalent unavailable status), and the root route is
served normally — its response does not depend on the client at all. -/
theorem missing_credential_scoped_fatality (env : Env)
    (h : optStrFalsy env.tmdb_api_key = true) :
    MovieAPIClient.init env =
      .error "TMDB_API_KEY environmental variable value not set. Please check your .env file." ∧
    initTmdbClient env = none ∧
    (∀ up movie_id d, get_movie (initTmdbClient env) up movie_id d =
        .ok (.httpError 503 clientUnavailableDetail, none)) ∧
    (∀ sup q d, search_movie (initTmdbClient env) sup q d =
        .ok (.httpError 503 clientUnavailableDetail, none)) ∧
    (∀ c, root c = root (initTmdbClient env)) ∧
    root (initTmdbClient env) =
      .obj [("message",
             .str "Movie Info Wrapper API is running. Go to /docs for interactive documentation.")] := by
  have hinit : MovieAPIClient.init env =
      .error "TMDB_API_KEY environmental variable value not set. Please check your .env file." := by
    unfold MovieAPIClient.init
    rw [if_pos h]
  have hnone : initTmdbClient env = none := by
    unfold initTmdbClient
    rw [hinit]
  refine ⟨hinit, hnone, ?_, ?_, fun c => rfl, rfl⟩
  · intro up movie_id d
    rw [hnone]
    rfl
  · intro sup q d
    rw [hnone]
    rfl

/-- Witness for C6 at a concrete environment with the API key unset. -/
theorem missing_credential_scoped_fatality_witness :
    MovieAPIClient.init ⟨some "https://api.example", none⟩ =
      .error "TMDB_API_KEY environmental variable value not set. Please check your .env file." ∧
    initTmdbClient ⟨some "https://api.example", none⟩ = none ∧
    get_movie (initTmdbClient ⟨some "https://api.example", none⟩)
        (fun _ => .requestFailure "unused") 1 0 =
      .ok (.httpError 503 clientUnavailableDetail, none) ∧
    search_movie (initTmdbClient ⟨some "https://api.example", none⟩)
        (fun _ => .requestFailure "unused") "q" 0 =
      .ok (.httpError 503 clientUnavailableDetail, none) ∧
    root (initTmdbClient ⟨some "https://api.example", none⟩) =
      .obj [("message",
             .str "Movie Info Wrapper API is running. Go to /docs for interactive documentation.")] := by
  have h := missing_credential_scoped_fatality ⟨some "https://api.example", none⟩ rfl
  exact ⟨h.1, h.2.1, h.2.2.1 (fun _ => .requestFailure "unused") 1 0,
         h.2.2.2.1 (fun _ => .requestFailure "unused") "q" 0, h.2.2.2.2.2⟩

theorem jsonLookup_none_any (kvs : List (String × JSON)) (k : String)
    (h : jsonLookup kvs k = none) : kvs.any (fun e => decide (e.1 = k)) = false := by
  unfold jsonLookup at h
  rw [Option.map_eq_none'] at h
  rw [List.any_eq_false]
  intro e he
  have := List.find?_eq_none.mp h e he
  simpa using this

theorem jsonLookup_some_any (kvs : List (String × JSON)) (k : String) (v : JSON)
    (h : jsonLookup kvs k = some v) :
    kvs.any (fun e => decide (e.1 = k)) = true ∧ kvs ≠ [] := by
  unfold jsonLookup at h
  rw [Option.map_eq_some'] at h
  obtain ⟨e, he, hv⟩ := h
  have hmem := List.mem_of_find?_eq_some he
  have hpe := List.find?_some he
  refine ⟨List.any_eq_true.mpr ⟨e, hmem, hpe⟩, ?_⟩
  intro hnil
  rw [hnil] at hmem
  exact (List.not_mem_nil e) hmem

/-- C8 counterexample: the claim "every successful payload with an empty
result list yields a response with total_results = 0" is false — a payload
with an empty results list but `total_results = 7` yields a successful
response whose `total_results` is 7, not 0. -/
theorem empty_search_counterexample :
    (search_movie (some sampleClient)
        (fun _ => .response ⟨200, .jsonBody
          (.obj [("results", .arr []), ("total_results", .num 7)])⟩) "aa" 0).map
      (fun r => r.1) =
      .ok (.success ⟨"aa", 7, [], 0⟩) ∧ (7 : Int) ≠ 0 := by
  constructor
  · rfl
  · decide

/-- C8 (amended): empty search success.  A falsy client payload, or a dict
payload without an `"error"` key and without a `"results"` key, yields the
successful empty response (total 0, empty list); a dict payload without
`"error"` whose `"results"` is the empty list yields the successful empty
response when its `"total_results"` field is 0 or absent — but when that
field carries another value n, the response copies n (see the
counterexample), so "total_results = 0" holds only in these cases, and no
error status is produced in any of them. -/
theorem empty_search_success (client c' : MovieAPIClient) (up : String → UpstreamOutcome)
    (q : String) (d : Int) (v : JSON) (invoked : Bool) (kvs : List (String × JSON))
    (hc : client.search_movies up q = .ok (v, c', invoked)) :
    (pyTruthy v = false →
      search_movie (some client) up q d = .ok (.success ⟨q, 0, [], d⟩, some c')) ∧
    (v = .obj kvs → jsonLookup kvs "error" = none → jsonLookup kvs "results" = none →
      search_movie (some client) up q d = .ok (.success ⟨q, 0, [], d⟩, some c')) ∧
    (v = .obj kvs → jsonLookup kvs "error" = none →
      jsonLookup kvs "results" = some (.arr []) →
      (jsonLookup kvs "total_results" = none ∨ jsonLookup kvs "total_results" = some (.num 0)) →
      search_movie (some client) up q d = .ok (.success ⟨q, 0, [], d⟩, some c')) := by
  refine ⟨?_, ?_, ?_⟩
  · intro hfalsy
    have hguard : (jsonIsDict v && jsonHasKey v "error") = false := by
      cases v <;> simp_all [pyTruthy, jsonIsDict, jsonHasKey, jsonLookup, List.isEmpty_iff]
    unfold search_movie
    dsimp only
    rw [hc]
    dsimp only
    rw [if_neg (by rw [hguard]; simp), if_pos (by rw [hfalsy]; rfl)]
  · intro hv herr hres
    subst hv
    have hguard : (jsonIsDict (.obj kvs) && jsonHasKey (.obj kvs) "error") = false := by
      simp [jsonIsDict, jsonHasKey, herr]
    unfold search_movie
    dsimp only
    rw [hc]
    dsimp only
    rw [if_neg (by rw [hguard]; simp)]
    by_cases hk : kvs = []
    · subst hk
      rw [if_pos (by rfl)]
    · rw [if_neg (by
        simp only [pyTruthy, Bool.not_eq_true, Bool.not_eq_true']
        simpa [List.isEmpty_iff] using hk)]
      unfold pyContainsStr
      dsimp only
      rw [jsonLookup_none_any kvs "results" hres]
  · intro hv herr hres htr
    subst hv
    obtain ⟨hany, hne⟩ := jsonLookup_some_any kvs "results" (.arr []) hres
    have hguard : (jsonIsDict (.obj kvs) && jsonHasKey (.obj kvs) "error") = false := by
      simp [jsonIsDict, jsonHasKey, herr]
    unfold search_movie
    dsimp only
    rw [hc]
    dsimp only
    rw [if_neg (by rw [hguard]; simp)]
    rw [if_neg (by
      simp only [pyTruthy, Bool.not_eq_true, Bool.not_eq_true']
      simpa [List.isEmpty_iff] using hne)]
    unfold pyContainsStr
    dsimp only
    rw [hany]
    dsimp only
    have hval : validateSearch (.obj kvs) q d = some ⟨q, 0, [], d⟩ := by
      unfold validateSearch
      dsimp only
      rw [hres]
      dsimp only [Option.getD, validateSearchItems, List.mapM]
      cases htr with
      | inl hnone =>
          simp only [Option.bind, hnone, coerceInt]
          rfl
      | inr hzero =>
          simp only [Option.bind, hzero, coerceInt]
          rfl
    rw [hval]

/-- Witness for the amended C8 at concrete inputs: a falsy payload (`None`),
a dict without results, and a dict with empty results and total 0. -/
theorem empty_search_success_witness :
    (search_movie (some sampleClient) (fun _ => .response ⟨200, .jsonBody .null⟩) "aa" 0 =
      .ok (.success ⟨"aa", 0, [], 0⟩,
           some { sampleClient with searchCache := ⟨32, [("aa", JSON.null)]⟩ })) ∧
    (search_movie (some sampleClient)
        (fun _ => .response ⟨200, .jsonBody (.obj [("page", .num 1)])⟩) "bb" 0 =
      .ok (.success ⟨"bb", 0, [], 0⟩,
           some { sampleClient with
                    searchCache := ⟨32, [("bb", .obj [("page", .num 1)])]⟩ })) ∧
    (search_movie (some sampleClient)
        (fun _ => .response ⟨200, .jsonBody
          (.obj [("results", .arr []), ("total_results", .num 0)])⟩) "cc" 0 =
      .ok (.success ⟨"cc", 0, [], 0⟩,
           some { sampleClient with
                    searchCache :=
                      ⟨32, [("cc", .obj [("results", .arr []), ("total_results", .num 0)])]⟩ })) :=
  ⟨(empty_search_success sampleClient
      { sampleClient with searchCache := ⟨32, [("aa", JSON.null)]⟩ }
      (fun _ => .response ⟨200, .jsonBody .null⟩) "aa" 0 JSON.null true [] rfl).1 rfl,
   (empty_search_success sampleClient
      { sampleClient with searchCache := ⟨32, [("bb", .obj [("page", .num 1)])]⟩ }
      (fun _ => .response ⟨200, .jsonBody (.obj [("page", .num 1)])⟩) "bb" 0
      (.obj [("page", .num 1)]) true [("page", .num 1)] rfl).2.1 rfl rfl rfl,
   (empty_search_success sampleClient
      { sampleClient with
          searchCache := ⟨32, [("cc", .obj [("results", .arr []), ("total_results", .num 0)])]⟩ }
      (fun _ => .response ⟨200, .jsonBody
        (.obj [("results", .arr []), ("total_results", .num 0)])⟩) "cc" 0
      (.obj [("results", .arr []), ("total_results", .num 0)]) true
      [("results", .arr []), ("total_results", .num 0)] rfl).2.2 rfl rfl rfl
      (Or.inr rfl)⟩

/-- C9 counterexample: the claim "a client result dictionary is surfaced as
data iff it lacks the error key" is false in the only-if direction — the
payload `\x7b"results": [\x7b\x7d]\x7d` lacks the `"error"` key, yet the
search endpoint raises HTTP 500 (the item fails response validation), so it
is not surfaced as data. -/
theorem error_key_detection_counterexample :
    (search_movie (some sampleClient)
        (fun _ => .response ⟨200, .jsonBody (.obj [("results", .arr [.obj []])])⟩)
        "aa" 0).map (fun r => r.1) =
      .ok (.httpError 500 "Error processing external search results. Internal service error.") ∧
    jsonHasKey (.obj [("results", .arr [.obj []])]) "error" = false :=
  ⟨rfl, rfl⟩

/-- C9 (amended): error detection is by key presence, not provenance.  Any
client result dict containing the `"error"` key — however it was produced —
makes either endpoint raise HTTP 500 with the client-error detail; and any
result surfaced as data lacks the `"error"` key (but a dict lacking
`"error"` may still fail mapping/validation and yield HTTP 500, see the
counterexample). -/
theorem error_key_detection (client cd cs : MovieAPIClient)
    (up : Int → UpstreamOutcome) (sup : String → UpstreamOutcome)
    (movie_id : Int) (q : String) (d : Int) (v w : JSON) (b1 b2 : Bool)
    (hcd : client.get_movie_details up movie_id = .ok (v, cd, b1))
    (hcs : client.search_movies sup q = .ok (w, cs, b2)) :
    ((jsonIsDict v && jsonHasKey v "error") = true →
      get_movie (some client) up movie_id d =
        .ok (.httpError 500 (clientErrorDetail v), some cd)) ∧
    ((jsonIsDict w && jsonHasKey w "error") = true →
      search_movie (some client) sup q d =
        .ok (.httpError 500 (clientErrorDetail w), some cs)) ∧
    (∀ resp st, get_movie (some client) up movie_id d = .ok (.success resp, st) →
      (jsonIsDict v && jsonHasKey v "error") = false) ∧
    (∀ resp st, search_movie (some client) sup q d = .ok (.success resp, st) →
      (jsonIsDict w && jsonHasKey w "error") = false) := by
  refine ⟨?_, ?_, ?_, ?_⟩
  · intro hguard
    have hnull : jsonIsNull v = false := by
      cases v <;> simp_all [jsonIsDict, jsonIsNull]
    unfold get_movie
    dsimp only
    rw [hcd]
    dsimp only
    rw [if_neg (by rw [hnull]; simp), if_pos hguard]
  · intro hguard
    unfold search_movie
    dsimp only
    rw [hcs]
    dsimp only
    rw [if_pos hguard]
  · intro resp st h
    cases hguard : (jsonIsDict v && jsonHasKey v "error") with
    | false => rfl
    | true =>
        exfalso
        have hnull : jsonIsNull v = false := by
          cases v <;> simp_all [jsonIsDict, jsonIsNull]
        unfold get_movie at h
        dsimp only at h
        rw [hcd] at h
        dsimp only at h
        rw [if_neg (by rw [hnull]; simp), if_pos hguard] at h
        exact absurd h (by simp)
  · intro resp st h
    cases hguard : (jsonIsDict w && jsonHasKey w "error") with
    | false => rfl
    | true =>
        exfalso
        unfold search_movie at h
        dsimp only at h
        rw [hcs] at h
        dsimp only at h
        rw [if_pos hguard] at h
        exact absurd h (by simp)

/-- Witness for the amended C9 at concrete inputs: 200-status payloads that
happen to contain an `"error"` field are classified as failures by both
endpoints. -/
theorem error_key_detection_witness :
    get_movie (some sampleClient)
        (fun _ => .response ⟨200, .jsonBody (.obj [("error", .str "x")])⟩) 3 0 =
      .ok (.httpError 500 (clientErrorDetail (.obj [("error", .str "x")])),
           some { sampleClient with
                    detailsCache := ⟨128, [(3, .obj [("error", .str "x")])]⟩ }) ∧
    search_movie (some sampleClient)
        (fun _ => .response ⟨200, .jsonBody (.obj [("error", .str "x")])⟩) "qq" 0 =
      .ok (.httpError 500 (clientErrorDetail (.obj [("error", .str "x")])),
           some { sampleClient with
                    searchCache := ⟨32, [("qq", .obj [("error", .str "x")])]⟩ }) := by
  have h := error_key_detection sampleClient
    { sampleClient with detailsCache := ⟨128, [(3, .obj [("error", .str "x")])]⟩ }
    { sampleClient with searchCache := ⟨32, [("qq", .obj [("error", .str "x")])]⟩ }
    (fun _ => .response ⟨200, .jsonBody (.obj [("error", .str "x")])⟩)
    (fun _ => .response ⟨200, .jsonBody (.obj [("error", .str "x")])⟩)
    3 "qq" 0 (.obj [("error", .str "x")]) (.obj [("error", .str "x")]) true true rfl rfl
  exact ⟨h.1 rfl, h.2.1 rfl⟩

/-- C10: total_results fallback.  For a successful search payload (a dict
without `"error"` whose `"results"` maps to items that validate), the
response field `total_results` copies the payload field `"total_results"` when
present (an integral number n), and otherwise equals the length of the mapped
results list; consequently `total_results` may differ from the number of
results actually returned (witnessed by a payload with one result and
total_results = 100). -/
theorem total_results_fallback (client c' : MovieAPIClient) (up : String → UpstreamOutcome)
    (q : String) (d : Int) (kvs : List (String × JSON)) (rs : JSON)
    (results : List MovieSearchResult) (invoked : Bool) (n : Int)
    (hc : client.search_movies up q = .ok (.obj kvs, c', invoked))
    (herr : jsonLookup kvs "error" = none)
    (hres : jsonLookup kvs "results" = some rs)
    (hitems : validateSearchItems rs = some results) :
    (jsonLookup kvs "total_results" = some (.num (n : Rat)) →
      search_movie (some client) up q d = .ok (.success ⟨q, n, results, d⟩, some c')) ∧
    (jsonLookup kvs "total_results" = none →
      search_movie (some client) up q d =
        .ok (.success ⟨q, (results.length : Int), results, d⟩, some c')) ∧
    (search_movie (some sampleClient)
        (fun _ => .response ⟨200, .jsonBody
          (.obj [("results", .arr [.obj [("id", .num 1), ("title", .str "A")]]),
                 ("total_results", .num 100)])⟩) "aa" 0).map (fun r => r.1) =
      .ok (.success ⟨"aa", 100, [⟨1, "A", none⟩], 0⟩) ∧
    (100 : Int) ≠ 1 := by
  obtain ⟨hany, hne⟩ := jsonLookup_some_any kvs "results" rs hres
  have hguard : (jsonIsDict (.obj kvs) && jsonHasKey (.obj kvs) "error") = false := by
    simp [jsonIsDict, jsonHasKey, herr]
  have hcommon : ∀ tr, jsonLookup kvs "total_results" = tr →
      search_movie (some client) up q d =
        (match (tr.getD (.num (results.length : Rat))) with
         | .num qq =>
             if qq.den = 1 then
               .ok (.success ⟨q, qq.num, results, d⟩, some c')
             else .ok (.httpError 500
               "Error processing external search results. Internal service error.", some c')
         | .str s =>
             match s.toInt? with
             | some m => .ok (.success ⟨q, m, results, d⟩, some c')
             | none => .ok (.httpError 500
                 "Error processing external search results. Internal service error.", some c')
         | _ => .ok (.httpError 500
             "Error processing external search results. Internal service error.", some c')) := by
    intro tr htr
    unfold search_movie
    dsimp only
    rw [hc]
    dsimp only
    rw [if_neg (by rw [hguard]; simp)]
    rw [if_neg (by
      simp only [pyTruthy, Bool.not_eq_true, Bool.not_eq_true']
      simpa [List.isEmpty_iff] using hne)]
    unfold pyContainsStr
    dsimp only
    rw [hany]
    dsimp only
    unfold validateSearch
    dsimp only
    rw [hres]
    dsimp only [Option.getD]
    rw [hitems]
    rw [htr]
    unfold coerceInt
    cases tr with
    | none =>
        simp [Option.getD, Option.bind]
    | some trv =>
        cases trv with
        | num qq => by_cases hden : qq.den = 1 <;> simp [Option.getD, Option.bind, hden]
        | str s => cases hsi : s.toInt? <;> simp [Option.getD, Option.bind, hsi]
        | null => simp [Option.getD, Option.bind]
        | bool b => simp [Option.getD, Option.bind]
        | arr xs => simp [Option.getD, Option.bind]
        | obj kvs2 => simp [Option.getD, Option.bind]
  refine ⟨?_, ?_, ?_, by decide⟩
  · intro htr
    rw [hcommon _ htr]
    simp [Option.getD]
  · intro htr
    rw [hcommon _ htr]
    simp [Option.getD]
  · rfl

/-- Witness for C10 at concrete inputs: payloads with and without the
total_results field. -/
theorem total_results_fallback_witness :
    (search_movie (some sampleClient)
        (fun _ => .response ⟨200, .jsonBody
          (.obj [("results", .arr []), ("total_results", .num 41)])⟩) "aa" 0 =
      .ok (.success ⟨"aa", 41, [], 0⟩,
           some { sampleClient with
                    searchCache :=
                      ⟨32, [("aa", .obj [("results", .arr []), ("total_results", .num 41)])]⟩ })) ∧
    (search_movie (some sampleClient)
        (fun _ => .response ⟨200, .jsonBody (.obj [("results", .arr [])])⟩) "bb" 0 =
      .ok (.success ⟨"bb", (([] : List MovieSearchResult).length : Int), [], 0⟩,
           some { sampleClient with
                    searchCache := ⟨32, [("bb", .obj [("results", .arr [])])]⟩ })) := by
  constructor
  · exact (total_results_fallback sampleClient
      { sampleClient with
          searchCache :=
            ⟨32, [("aa", .obj [("results", .arr []), ("total_results", .num 41)])]⟩ }
      (fun _ => .response ⟨200, .jsonBody
        (.obj [("results", .arr []), ("total_results", .num 41)])⟩) "aa" 0
      [("results", .arr []), ("total_results", .num 41)] (.arr []) [] true 41
      rfl rfl rfl rfl).1 (by rw [show ((41 : Int) : Rat) = (41 : Rat) by norm_num]; rfl)
  · exact (total_results_fallback sampleClient
      { sampleClient with searchCache := ⟨32, [("bb", .obj [("results", .arr [])])]⟩ }
      (fun _ => .response ⟨200, .jsonBody (.obj [("results", .arr [])])⟩) "bb" 0
      [("results", .arr [])] (.arr []) [] true 0 rfl rfl rfl rfl).2.1 rfl
